import Mathlib

/-!
Verification of the `remix-auth-twilio` strategy core (`src/index.ts`,
class `TwilioStrategy`) against its natural-language specification.

The transition function `TwilioStrategy.authenticate` is embedded as a pure
function from the configuration (the pluggable collaborators: phone
formatter, `sendCode`, `validateCode`, and the user-resolution callback
`verify`), the authenticate options (`successRedirect` / `failureRedirect`),
the parsed form and the session read from the request cookie, to an outcome
together with the list of provider calls issued during the transition.

JavaScript thrown values are embedded as `JsError`: `Error` instances carry
a message, any other thrown value is `other` (the code stringifies it). The
thrown `redirect(...)` responses of the source are embedded as the
`Outcome.redirect` constructor (the catch clause rethrows them unchanged).
-/

namespace RemixAuthTwilio

/-- A JavaScript thrown value: either an `Error` instance (carrying its
`message`), or any other thrown value (carrying its JSON serialization). -/
inductive JsError where
  | error (message : String)
  | other (json : String)
deriving DecidableEq, Repr

/-- The session scope read from the request cookie. The three core-relevant
keys of `authenticate`: `user` is the value under `options.sessionKey`,
`phone` the flashed value under `sessionPhoneKey` (the string
`"twilio:phone"`), `error` the flashed value under
`options.sessionErrorKey`. An absent key is `none`. -/
structure Session (User : Type) where
  user : Option User
  phone : Option String
  error : Option String
deriving DecidableEq, Repr

/-- The session key used by the strategy for the pending phone:
`this.sessionPhoneKey = "twilio:phone"` in the constructor. -/
def sessionPhoneKey : String := "twilio:phone"

/-- Result object of a `validateCode` call (Twilio
`VerificationCheckInstance`); `authenticate` only inspects its `status`. -/
structure VerificationCheck where
  status : String
deriving DecidableEq, Repr

/-- The parsed form of the incoming request: `form.phone` and `form.code`
from `Object.fromEntries(formData.entries())`. A missing field is `none`. -/
structure Form where
  phone : Option String
  code : Option String
deriving DecidableEq, Repr

/-- JavaScript truthiness of a possibly-missing form string: `undefined`
and the empty string are falsy. -/
def truthy : Option String → Bool
  | none => false
  | some s => s ≠ ""

/-- The pluggable collaborators of a `TwilioStrategy` instance:
`formatPhoneNumber`, `sendCode`, `validateCode` (each may throw, embedded
as `Except JsError`), and the user-resolution callback `verify`, which
receives the formatted phone and the form (the `request` argument is
opaque to the core and omitted). -/
structure Config (User : Type) where
  formatPhoneNumber : String → Except JsError String
  sendCode : String → Except JsError Unit
  validateCode : String → String → Except JsError VerificationCheck
  verify : String → Form → Except JsError User

/-- Authenticate options relevant to the transition: redirect targets. -/
structure Options where
  successRedirect : Option String
  failureRedirect : Option String
deriving DecidableEq, Repr

/-- Outcome of one transition: a signaled redirect (target plus the
committed session), the stored principal returned to the caller, or a
propagated typed failure (with the session as persisted by the failure
transition). -/
inductive Outcome (User : Type) where
  | redirect (target : String) (session : Session User)
  | authenticated (user : User)
  | failed (message : String) (session : Session User)
deriving DecidableEq, Repr

/-- A provider call issued during the transition. -/
inductive ProviderCall where
  | sendCode (phone : String)
  | checkCode (phone : String) (code : String)
deriving DecidableEq, Repr

/-- Message of the error thrown when `successRedirect` is missing. -/
def missingSuccessRedirectMessage : String :=
  "Missing required `successRedirect` property."

/-- Failure message for an absent or empty phone field. -/
def missingPhoneMessage : String := "Missing phone number."

/-- Failure message for a code check that did not come back approved; also
thrown by `defaultValidateCode` on a transport-level error. -/
def invalidCodeMessage : String := "Sorry, that code is invalid. Please try again."

/-- Failure message substituted for a thrown non-`Error` value. -/
def unknownErrorMessage : String := "Unknown Error."

/-- Modelled from the spec: `Strategy.failure` is inherited from the
`remix-auth` base class and its body is not under `src/`. Per the spec
(section 4.4, step 7), the failure transition writes the message into the
flashed error session key, persists the session, and then signals a
redirect to the configured `failureRedirect`, or, if none is configured,
propagates the failure to the caller as a typed error. -/
def Strategy.failure {User : Type} (message : String) (session : Session User)
    (failureRedirect : Option String) : Outcome User :=
  let s := { session with error := some message }
  match failureRedirect with
  | some target => Outcome.redirect target s
  | none => Outcome.failed message s

/-- The catch clause of `authenticate` (lines 170-192): a thrown `Error`
instance is routed to the failure transition with its own message; any
other thrown value is routed with the message `"Unknown Error."`. (Thrown
302 redirect responses never reach this point in the embedding: they are
returned as `Outcome.redirect` directly, matching the rethrow.) -/
def catchThrown {User : Type} (e : JsError) (session : Session User)
    (failureRedirect : Option String) : Outcome User :=
  match e with
  | JsError.error message => Strategy.failure message session failureRedirect
  | JsError.other _ => Strategy.failure unknownErrorMessage session failureRedirect

/-- Modelled from the spec: `Strategy.success` is inherited from the
`remix-auth` base class and its body is not under `src/`. Per the spec
(section 4.4, step 1), when the session already holds a principal the
transition returns the stored principal unchanged. -/
def Strategy.success {User : Type} (user : User) : Outcome User :=
  Outcome.authenticated user

/-- Shallow embedding of `TwilioStrategy.authenticate` (src/index.ts lines
100-200). Returns the outcome together with the list of provider calls
issued, in order. -/
def authenticate {User : Type} (cfg : Config User) (opts : Options)
    (form : Form) (session : Session User) :
    Outcome User × List ProviderCall :=
  match session.user with
  | some user => (Strategy.success user, [])
  | none =>
    match opts.successRedirect with
    | none =>
      (catchThrown (JsError.error missingSuccessRedirectMessage) session
        opts.failureRedirect, [])
    | some successRedirect =>
      if truthy form.phone then
        match cfg.formatPhoneNumber (form.phone.getD "") with
        | Except.error e => (catchThrown e session opts.failureRedirect, [])
        | Except.ok phoneId =>
          if phoneId = "" then
            (Strategy.failure missingPhoneMessage session opts.failureRedirect, [])
          else if truthy form.code then
            let code := form.code.getD ""
            match cfg.validateCode code phoneId with
            | Except.error e =>
              (catchThrown e session opts.failureRedirect,
                [ProviderCall.checkCode phoneId code])
            | Except.ok validate =>
              if validate.status ≠ "approved" then
                (Strategy.failure invalidCodeMessage session opts.failureRedirect,
                  [ProviderCall.checkCode phoneId code])
              else
                match cfg.verify phoneId form with
                | Except.error e =>
                  (catchThrown e session opts.failureRedirect,
                    [ProviderCall.checkCode phoneId code])
                | Except.ok user =>
                  (Outcome.redirect successRedirect
                    { session with user := some user, phone := none, error := none },
                    [ProviderCall.checkCode phoneId code])
          else
            match cfg.sendCode phoneId with
            | Except.error e =>
              (catchThrown e session opts.failureRedirect,
                [ProviderCall.sendCode phoneId])
            | Except.ok _ =>
              (Outcome.redirect successRedirect
                { session with phone := some phoneId, error := none },
                [ProviderCall.sendCode phoneId])
      else
        (Strategy.failure missingPhoneMessage session opts.failureRedirect, [])

/-- Embedding of `TwilioStrategy.defaultValidateCode` (lines 211-225): it
issues the underlying Twilio verification-check network call and, on any
transport-level rejection, throws a fresh `Error` carrying the
invalid-code message. -/
def defaultValidateCode (transportCheck : String → String → Except JsError VerificationCheck)
    (code phoneId : String) : Except JsError VerificationCheck :=
  match transportCheck code phoneId with
  | Except.ok v => Except.ok v
  | Except.error _ => Except.error (JsError.error invalidCodeMessage)

/-! Concrete fixtures used to evaluate the transition on explicit inputs
(witnesses and counterexamples). The principal type is `Nat`. -/

/-- A fresh session: no principal, no pending phone, no flashed error. -/
def emptySession : Session Nat := { user := none, phone := none, error := none }

/-- A session in the `AwaitingCode` state: a pending phone was flashed by a
previous phone-only submission. -/
def pendingSession : Session Nat :=
  { user := none, phone := some "+15551234567", error := none }

/-- Form of a second-step submission: phone and code both present. -/
def demoPhoneCodeForm : Form :=
  { phone := some "555-123-4567", code := some "123456" }

/-- Form of a first-step submission: phone present, no code field. -/
def demoPhoneOnlyForm : Form :=
  { phone := some "555-123-4567", code := none }

/-- Form with a phone and a code field whose value is the empty string. -/
def demoEmptyCodeForm : Form :=
  { phone := some "555-123-4567", code := some "" }

/-- Form with no phone field but with a code field. -/
def noPhoneForm : Form := { phone := none, code := some "123456" }

/-- Options with both redirect targets configured. -/
def demoOpts : Options :=
  { successRedirect := some "/account", failureRedirect := some "/login" }

/-- A deterministic formatter fixture: normalizes the demo raw phone. -/
def demoFormat : String → Except JsError String :=
  fun _ => Except.ok "+15551234567"

/-- Collaborators for the happy path: formatting succeeds, the code check
comes back approved, the user-resolution callback returns principal `7`. -/
def demoConfig : Config Nat :=
  { formatPhoneNumber := demoFormat
    sendCode := fun _ => Except.ok ()
    validateCode := fun _ _ => Except.ok { status := "approved" }
    verify := fun _ _ => Except.ok 7 }

/-- Collaborators whose code check succeeds at the transport level but
returns a non-approved status. -/
def rejectedConfig : Config Nat :=
  { demoConfig with validateCode := fun _ _ => Except.ok { status := "pending" } }

/-- Collaborators whose code check uses the default `validateCode` over a
transport that fails (provider unreachable). -/
def transportFailConfig : Config Nat :=
  { demoConfig with
    validateCode :=
      defaultValidateCode fun _ _ =>
        Except.error (JsError.error "connect ECONNREFUSED verify.twilio.com") }

/-- Collaborators whose user-resolution callback throws a non-`Error`
value (the string literal `"42"`). -/
def throwOtherConfig : Config Nat :=
  { demoConfig with verify := fun _ _ => Except.error (JsError.other "42") }

/-- Collaborators whose user-resolution callback throws an `Error` with a
caller-defined message. -/
def throwErrorConfig : Config Nat :=
  { demoConfig with verify := fun _ _ => Except.error (JsError.error "User not found") }

/-! Claim theorems. -/

/-- C1: for every request carrying a phone and a code, when the session
holds no principal and `checkCode` returns approved, the transition stores
the value returned by the user-resolution callback under the session key,
unsets the flashed pending-phone key, unsets the flashed error key, and
signals a redirect to `successRedirect` with the committed session. -/
theorem approved_code_stores_principal_and_redirects {User : Type}
    (cfg : Config User) (opts : Options) (form : Form) (session : Session User)
    (sr phoneRaw phoneId code : String) (user : User) (check : VerificationCheck)
    (hUser : session.user = none)
    (hSR : opts.successRedirect = some sr)
    (hPhone : form.phone = some phoneRaw) (hPhoneNe : phoneRaw ≠ "")
    (hFmt : cfg.formatPhoneNumber phoneRaw = Except.ok phoneId)
    (hIdNe : phoneId ≠ "")
    (hCode : form.code = some code) (hCodeNe : code ≠ "")
    (hCheck : cfg.validateCode code phoneId = Except.ok check)
    (hApproved : check.status = "approved")
    (hVerify : cfg.verify phoneId form = Except.ok user) :
    authenticate cfg opts form session =
      (Outcome.redirect sr
          { session with user := some user, phone := none, error := none },
        [ProviderCall.checkCode phoneId code]) := by
  simp [authenticate, truthy, hUser, hSR, hPhone, hPhoneNe, hFmt, hIdNe, hCode,
    hCodeNe, hCheck, hApproved, hVerify]

/-- C1 witness: the happy path evaluated on the demo fixtures. -/
theorem approved_code_stores_principal_and_redirects_witness :
    authenticate demoConfig demoOpts demoPhoneCodeForm pendingSession =
      (Outcome.redirect "/account"
          { pendingSession with user := some 7, phone := none, error := none },
        [ProviderCall.checkCode "+15551234567" "123456"]) :=
  approved_code_stores_principal_and_redirects demoConfig demoOpts
    demoPhoneCodeForm pendingSession "/account" "555-123-4567" "+15551234567"
    "123456" 7 { status := "approved" } rfl rfl rfl (by decide) rfl (by decide)
    rfl (by decide) rfl rfl rfl

/-- C2: for every request carrying a phone and a code, when the session
holds no principal and `checkCode` returns a non-approved status, the
transition flashes the invalid-code message into the error key, leaves the
pending-phone key and the principal key unchanged, and signals a redirect
to `failureRedirect` when one is configured, otherwise propagates a typed
failure. -/
theorem rejected_code_flashes_error_and_preserves_phone {User : Type}
    (cfg : Config User) (opts : Options) (form : Form) (session : Session User)
    (sr phoneRaw phoneId code : String) (check : VerificationCheck)
    (hUser : session.user = none)
    (hSR : opts.successRedirect = some sr)
    (hPhone : form.phone = some phoneRaw) (hPhoneNe : phoneRaw ≠ "")
    (hFmt : cfg.formatPhoneNumber phoneRaw = Except.ok phoneId)
    (hIdNe : phoneId ≠ "")
    (hCode : form.code = some code) (hCodeNe : code ≠ "")
    (hCheck : cfg.validateCode code phoneId = Except.ok check)
    (hRejected : check.status ≠ "approved") :
    authenticate cfg opts form session =
      ((match opts.failureRedirect with
        | some fr =>
            Outcome.redirect fr { session with error := some invalidCodeMessage }
        | none =>
            Outcome.failed invalidCodeMessage
              { session with error := some invalidCodeMessage }),
        [ProviderCall.checkCode phoneId code]) := by
  have h : authenticate cfg opts form session =
      (Strategy.failure invalidCodeMessage session opts.failureRedirect,
        [ProviderCall.checkCode phoneId code]) := by
    simp [authenticate, truthy, hUser, hSR, hPhone, hPhoneNe, hFmt, hIdNe, hCode,
      hCodeNe, hCheck, hRejected]
  rw [h]
  cases opts.failureRedirect <;> simp [Strategy.failure]

/-- C2 witness: a rejected check on the demo fixtures flashes the
invalid-code message, keeps the pending phone, and redirects to the
configured failure target. -/
theorem rejected_code_flashes_error_and_preserves_phone_witness :
    authenticate rejectedConfig demoOpts demoPhoneCodeForm pendingSession =
      (Outcome.redirect "/login"
          { pendingSession with error := some invalidCodeMessage },
        [ProviderCall.checkCode "+15551234567" "123456"]) :=
  rejected_code_flashes_error_and_preserves_phone rejectedConfig demoOpts
    demoPhoneCodeForm pendingSession "/account" "555-123-4567" "+15551234567"
    "123456" { status := "pending" } rfl rfl rfl (by decide) rfl (by decide)
    rfl (by decide) rfl (by decide)

/-- C3: for every request carrying a phone and no code, when the session
holds no principal and `sendCode` succeeds, the transition flashes the
normalized phone into the pending-phone key, unsets the flashed error key,
and signals a redirect to `successRedirect` with the committed session. -/
theorem phone_only_flashes_pending_phone_and_redirects {User : Type}
    (cfg : Config User) (opts : Options) (form : Form) (session : Session User)
    (sr phoneRaw phoneId : String)
    (hUser : session.user = none)
    (hSR : opts.successRedirect = some sr)
    (hPhone : form.phone = some phoneRaw) (hPhoneNe : phoneRaw ≠ "")
    (hFmt : cfg.formatPhoneNumber phoneRaw = Except.ok phoneId)
    (hIdNe : phoneId ≠ "")
    (hCode : form.code = none)
    (hSend : cfg.sendCode phoneId = Except.ok ()) :
    authenticate cfg opts form session =
      (Outcome.redirect sr
          { session with phone := some phoneId, error := none },
        [ProviderCall.sendCode phoneId]) := by
  simp [authenticate, truthy, hUser, hSR, hPhone, hPhoneNe, hFmt, hIdNe, hCode,
    hSend]

/-- C3 witness: a phone-only submission on the demo fixtures flashes the
normalized phone and redirects to the success target. -/
theorem phone_only_flashes_pending_phone_and_redirects_witness :
    authenticate demoConfig demoOpts demoPhoneOnlyForm emptySession =
      (Outcome.redirect "/account"
          { emptySession with phone := some "+15551234567", error := none },
        [ProviderCall.sendCode "+15551234567"]) :=
  phone_only_flashes_pending_phone_and_redirects demoConfig demoOpts
    demoPhoneOnlyForm emptySession "/account" "555-123-4567" "+15551234567"
    rfl rfl rfl (by decide) rfl (by decide) rfl rfl

/-- C4: for every request whose session already holds a principal under
the session key, the transition issues no provider call, does not require
`successRedirect` (the options are arbitrary, including absent targets),
and returns the stored principal unchanged. -/
theorem existing_principal_bypasses_provider {User : Type}
    (cfg : Config User) (opts : Options) (form : Form) (session : Session User)
    (u : User) (hUser : session.user = some u) :
    authenticate cfg opts form session = (Outcome.authenticated u, []) := by
  simp [authenticate, hUser, Strategy.success]

/-- C4 witness: with a principal in the session and no redirect targets
configured at all, the transition returns the principal with no provider
call. -/
theorem existing_principal_bypasses_provider_witness :
    authenticate demoConfig { successRedirect := none, failureRedirect := none }
        demoPhoneCodeForm { emptySession with user := some 7 } =
      (Outcome.authenticated 7, []) :=
  existing_principal_bypasses_provider demoConfig
    { successRedirect := none, failureRedirect := none } demoPhoneCodeForm
    { emptySession with user := some 7 } 7 rfl

/-- C5 counterexample: with `successRedirect` absent but `failureRedirect`
configured, the missing-redirect failure is NOT propagated to the caller:
at this concrete input the transition flashes the misconfiguration message
into the session error key and redirects to `failureRedirect`, surfacing
it to the end user exactly like a recoverable message, and the outcome
differs from the typed propagated failure the claim mandates. -/
theorem missing_success_redirect_counterexample :
    (authenticate demoConfig { successRedirect := none, failureRedirect := some "/login" }
        demoPhoneCodeForm emptySession).1
      = Outcome.redirect "/login"
          { emptySession with error := some missingSuccessRedirectMessage }
    ∧ (authenticate demoConfig { successRedirect := none, failureRedirect := some "/login" }
        demoPhoneCodeForm emptySession).1
      ≠ Outcome.failed missingSuccessRedirectMessage
          { emptySession with error := some missingSuccessRedirectMessage } := by
  constructor
  · rfl
  · decide

/-- C5 amended: for every request whose session holds no principal, if
`successRedirect` is not configured the transition fails with the
missing-successRedirect message before any provider call is made (the
provider-call trace is empty); the failure is routed through the unified
failure transition, so it is flashed and redirected to `failureRedirect`
when one is configured, and propagated as a typed failure only when
`failureRedirect` is absent. -/
theorem missing_success_redirect_fails_before_provider {User : Type}
    (cfg : Config User) (opts : Options) (form : Form) (session : Session User)
    (hUser : session.user = none)
    (hSR : opts.successRedirect = none) :
    authenticate cfg opts form session =
      ((match opts.failureRedirect with
        | some fr =>
            Outcome.redirect fr
              { session with error := some missingSuccessRedirectMessage }
        | none =>
            Outcome.failed missingSuccessRedirectMessage
              { session with error := some missingSuccessRedirectMessage }),
        []) := by
  have h : authenticate cfg opts form session =
      (Strategy.failure missingSuccessRedirectMessage session opts.failureRedirect,
        []) := by
    simp [authenticate, hUser, hSR, catchThrown]
  rw [h]
  cases opts.failureRedirect <;> simp [Strategy.failure]

/-- C5 amended witness: with neither redirect target configured, the
misconfiguration is propagated as a typed failure with no provider call. -/
theorem missing_success_redirect_fails_before_provider_witness :
    authenticate demoConfig { successRedirect := none, failureRedirect := none }
        demoPhoneCodeForm emptySession =
      (Outcome.failed missingSuccessRedirectMessage
          { emptySession with error := some missingSuccessRedirectMessage },
        []) :=
  missing_success_redirect_fails_before_provider demoConfig
    { successRedirect := none, failureRedirect := none } demoPhoneCodeForm
    emptySession rfl rfl

/-- C6 counterexample: the failure message produced by a transport-level
failure of the default `validateCode` is NOT distinct from the
invalid-code message of a rejected check: at these concrete inputs both
transitions flash exactly `invalidCodeMessage` (the default `validateCode`
catches the transport error and throws a fresh error carrying that very
message), and the two outcomes coincide. -/
theorem transport_error_message_not_distinct_counterexample :
    (authenticate transportFailConfig demoOpts demoPhoneCodeForm pendingSession).1
      = Outcome.redirect "/login"
          { pendingSession with error := some invalidCodeMessage }
    ∧ (authenticate rejectedConfig demoOpts demoPhoneCodeForm pendingSession).1
      = Outcome.redirect "/login"
          { pendingSession with error := some invalidCodeMessage } := by
  constructor <;> rfl

/-- C6 amended: for every phone-and-code submission, a transport-level
failure of the default `validateCode` takes the failure transition while
preserving the pending phone and the principal key, but its message is the
same invalid-code message produced by a rejected check, not a distinct
provider-error message. -/
theorem transport_error_takes_failure_with_invalid_code_message {User : Type}
    (cfg : Config User) (opts : Options) (form : Form) (session : Session User)
    (transportCheck : String → String → Except JsError VerificationCheck)
    (sr phoneRaw phoneId code : String) (e : JsError)
    (hUser : session.user = none)
    (hSR : opts.successRedirect = some sr)
    (hPhone : form.phone = some phoneRaw) (hPhoneNe : phoneRaw ≠ "")
    (hFmt : cfg.formatPhoneNumber phoneRaw = Except.ok phoneId)
    (hIdNe : phoneId ≠ "")
    (hCode : form.code = some code) (hCodeNe : code ≠ "")
    (hVC : cfg.validateCode = defaultValidateCode transportCheck)
    (hTransport : transportCheck code phoneId = Except.error e) :
    authenticate cfg opts form session =
      ((match opts.failureRedirect with
        | some fr =>
            Outcome.redirect fr { session with error := some invalidCodeMessage }
        | none =>
            Outcome.failed invalidCodeMessage
              { session with error := some invalidCodeMessage }),
        [ProviderCall.checkCode phoneId code]) := by
  have h : authenticate cfg opts form session =
      (Strategy.failure invalidCodeMessage session opts.failureRedirect,
        [ProviderCall.checkCode phoneId code]) := by
    simp [authenticate, truthy, hUser, hSR, hPhone, hPhoneNe, hFmt, hIdNe, hCode,
      hCodeNe, hVC, defaultValidateCode, hTransport, catchThrown]
  rw [h]
  cases opts.failureRedirect <;> simp [Strategy.failure]

/-- C6 amended witness: a transport failure on the demo fixtures flashes
the invalid-code message, keeps the pending phone, and redirects to the
failure target. -/
theorem transport_error_takes_failure_with_invalid_code_message_witness :
    authenticate transportFailConfig demoOpts demoPhoneCodeForm pendingSession =
      (Outcome.redirect "/login"
          { pendingSession with error := some invalidCodeMessage },
        [ProviderCall.checkCode "+15551234567" "123456"]) :=
  transport_error_takes_failure_with_invalid_code_message transportFailConfig
    demoOpts demoPhoneCodeForm pendingSession
    (fun _ _ => Except.error (JsError.error "connect ECONNREFUSED verify.twilio.com"))
    "/account" "555-123-4567" "+15551234567" "123456"
    (JsError.error "connect ECONNREFUSED verify.twilio.com")
    rfl rfl rfl (by decide) rfl (by decide) rfl (by decide) rfl rfl

/-- C7: for every request whose session holds no principal and whose form
carries no phone field or an empty one, the transition fails with the
missing-phone message via the failure transition with no provider call,
regardless of any other form fields present (the form's code field is
arbitrary). -/
theorem missing_phone_fails {User : Type}
    (cfg : Config User) (opts : Options) (form : Form) (session : Session User)
    (sr : String)
    (hUser : session.user = none)
    (hSR : opts.successRedirect = some sr)
    (hPhone : truthy form.phone = false) :
    authenticate cfg opts form session =
      ((match opts.failureRedirect with
        | some fr =>
            Outcome.redirect fr { session with error := some missingPhoneMessage }
        | none =>
            Outcome.failed missingPhoneMessage
              { session with error := some missingPhoneMessage }),
        []) := by
  have h : authenticate cfg opts form session =
      (Strategy.failure missingPhoneMessage session opts.failureRedirect, []) := by
    simp [authenticate, hUser, hSR, hPhone]
  rw [h]
  cases opts.failureRedirect <;> simp [Strategy.failure]

/-- C7 witness: a form with no phone field but with a code field fails
with the missing-phone message and redirects to the failure target. -/
theorem missing_phone_fails_witness :
    authenticate demoConfig demoOpts noPhoneForm emptySession =
      (Outcome.redirect "/login"
          { emptySession with error := some missingPhoneMessage },
        []) :=
  missing_phone_fails demoConfig demoOpts noPhoneForm emptySession "/account"
    rfl rfl rfl

/-- C8 counterexample: a non-`Error` value thrown by the user-resolution
callback is NOT propagated verbatim: at this concrete input the callback
throws the value `"42"`, yet the caller receives a failure carrying the
substituted message `"Unknown Error."`, which differs from the thrown
value. -/
theorem verify_error_not_verbatim_counterexample :
    (authenticate throwOtherConfig
        { successRedirect := some "/account", failureRedirect := none }
        demoPhoneCodeForm pendingSession).1
      = Outcome.failed unknownErrorMessage
          { pendingSession with error := some unknownErrorMessage }
    ∧ unknownErrorMessage ≠ "42" := by
  constructor
  · rfl
  · decide

/-- C8 amended: for every phone-and-code submission where `checkCode`
returns approved and the user-resolution callback throws, the thrown value
is routed through the failure transition: the message of a thrown `Error`
is carried verbatim, while any non-`Error` thrown value is replaced by the
substituted message `"Unknown Error."`. -/
theorem verify_thrown_error_routed_to_failure {User : Type}
    (cfg : Config User) (opts : Options) (form : Form) (session : Session User)
    (sr phoneRaw phoneId code : String) (check : VerificationCheck) (e : JsError)
    (hUser : session.user = none)
    (hSR : opts.successRedirect = some sr)
    (hPhone : form.phone = some phoneRaw) (hPhoneNe : phoneRaw ≠ "")
    (hFmt : cfg.formatPhoneNumber phoneRaw = Except.ok phoneId)
    (hIdNe : phoneId ≠ "")
    (hCode : form.code = some code) (hCodeNe : code ≠ "")
    (hCheck : cfg.validateCode code phoneId = Except.ok check)
    (hApproved : check.status = "approved")
    (hVerify : cfg.verify phoneId form = Except.error e) :
    authenticate cfg opts form session =
      (Strategy.failure
          (match e with
            | JsError.error m => m
            | JsError.other _ => unknownErrorMessage)
          session opts.failureRedirect,
        [ProviderCall.checkCode phoneId code]) := by
  have h : authenticate cfg opts form session =
      (catchThrown e session opts.failureRedirect,
        [ProviderCall.checkCode phoneId code]) := by
    simp [authenticate, truthy, hUser, hSR, hPhone, hPhoneNe, hFmt, hIdNe, hCode,
      hCodeNe, hCheck, hApproved, hVerify]
  rw [h]
  cases e <;> simp [catchThrown]

/-- C8 amended witness: an `Error` thrown by the callback surfaces with
its own message carried verbatim through the failure transition. -/
theorem verify_thrown_error_routed_to_failure_witness :
    authenticate throwErrorConfig demoOpts demoPhoneCodeForm pendingSession =
      (Outcome.redirect "/login"
          { pendingSession with error := some "User not found" },
        [ProviderCall.checkCode "+15551234567" "123456"]) :=
  verify_thrown_error_routed_to_failure throwErrorConfig demoOpts
    demoPhoneCodeForm pendingSession "/account" "555-123-4567" "+15551234567"
    "123456" { status := "approved" } (JsError.error "User not found")
    rfl rfl rfl (by decide) rfl (by decide) rfl (by decide) rfl rfl rfl

/-- C9: for every incoming request, the transition issues at most one
provider call: its provider-call trace is empty, a single `sendCode` call,
or a single `checkCode` call — never both kinds and never more than one
call of either kind, with no retry. -/
theorem at_most_one_provider_call {User : Type}
    (cfg : Config User) (opts : Options) (form : Form) (session : Session User) :
    (authenticate cfg opts form session).2 = []
    ∨ (∃ p, (authenticate cfg opts form session).2 = [ProviderCall.sendCode p])
    ∨ (∃ p c, (authenticate cfg opts form session).2 = [ProviderCall.checkCode p c]) := by
  rcases hu : session.user with _ | u
  · rcases hsr : opts.successRedirect with _ | sr
    · left; simp [authenticate, hu, hsr]
    · by_cases hp : truthy form.phone
      · rcases hf : cfg.formatPhoneNumber (form.phone.getD "") with e | pid
        · left; simp [authenticate, hu, hsr, hp, hf]
        · by_cases hpid : pid = ""
          · left; simp [authenticate, hu, hsr, hp, hf, hpid]
          · by_cases hc : truthy form.code
            · right; right
              refine ⟨pid, form.code.getD "", ?_⟩
              rcases hv : cfg.validateCode (form.code.getD "") pid with e | v
              · simp [authenticate, hu, hsr, hp, hf, hpid, hc, hv]
              · by_cases ha : v.status = "approved"
                · rcases hw : cfg.verify pid form with e | u
                  · simp [authenticate, hu, hsr, hp, hf, hpid, hc, hv, ha, hw]
                  · simp [authenticate, hu, hsr, hp, hf, hpid, hc, hv, ha, hw]
                · simp [authenticate, hu, hsr, hp, hf, hpid, hc, hv, ha]
            · right; left
              refine ⟨pid, ?_⟩
              rcases hs : cfg.sendCode pid with e | u
              · simp [authenticate, hu, hsr, hp, hf, hpid, hc, hs]
              · simp [authenticate, hu, hsr, hp, hf, hpid, hc, hs]
      · left; simp [authenticate, hu, hsr, hp]
  · left; simp [authenticate, hu, Strategy.success]

/-- C10: for every request carrying a phone and a code field whose value
is the empty string, when the session holds no principal the transition
treats the code as absent: it issues exactly one `sendCode` call (no
`checkCode`), flashes the normalized phone into the pending-phone key,
unsets the flashed error key, and signals a redirect to `successRedirect`,
exactly as for a phone-only submission. -/
theorem empty_code_treated_as_absent {User : Type}
    (cfg : Config User) (opts : Options) (form : Form) (session : Session User)
    (sr phoneRaw phoneId : String)
    (hUser : session.user = none)
    (hSR : opts.successRedirect = some sr)
    (hPhone : form.phone = some phoneRaw) (hPhoneNe : phoneRaw ≠ "")
    (hFmt : cfg.formatPhoneNumber phoneRaw = Except.ok phoneId)
    (hIdNe : phoneId ≠ "")
    (hCode : form.code = some "")
    (hSend : cfg.sendCode phoneId = Except.ok ()) :
    authenticate cfg opts form session =
      (Outcome.redirect sr
          { session with phone := some phoneId, error := none },
        [ProviderCall.sendCode phoneId]) := by
  simp [authenticate, truthy, hUser, hSR, hPhone, hPhoneNe, hFmt, hIdNe, hCode,
    hSend]

/-- C10 witness: a submission with an empty code field on the demo
fixtures requests a new code and flashes the pending phone. -/
theorem empty_code_treated_as_absent_witness :
    authenticate demoConfig demoOpts demoEmptyCodeForm emptySession =
      (Outcome.redirect "/account"
          { emptySession with phone := some "+15551234567", error := none },
        [ProviderCall.sendCode "+15551234567"]) :=
  empty_code_treated_as_absent demoConfig demoOpts demoEmptyCodeForm
    emptySession "/account" "555-123-4567" "+15551234567"
    rfl rfl rfl (by decide) rfl (by decide) rfl rfl

end RemixAuthTwilio
